import Mathlib

/-!
Verification of the diaper-detour backend's place-ranking and
station-verification engine against a shallow Lean embedding of
`src/server/storage.ts`.

The repository's `storage.ts` concatenates three near-duplicate variants of
the storage module.  We embed the pieces the claims are about:

* `DbStorage` (first variant, lines 500-793): the consensus recompute
  `updateStationRating`, the reconciliation `findOrCreateStationFromPlace`,
  the scorer `calculateChangingStationScore` and the search/rank pipeline.
* `MemStorage` (first variant, lines 27-497): the guarded consensus
  recompute, the scorer with the chain-id tiers, and the search pipeline.
* `MemStorageB` (second variant, lines 813-1300): its consensus recompute
  `updateStationRating` (lines 1046-1078), which sets `isVerified`
  unconditionally in the positive branch.

Numbers are modelled as rationals, JavaScript `null`/`undefined` as
`Option`, and a thrown JavaScript error as `Except`.
-/

/-- Lowercasing of a single character exactly as `String.prototype.toLowerCase`
acts on the ASCII range used by the curated chain list and category names. -/
def charToLower (c : Char) : Char :=
  if 65 ≤ c.toNat ∧ c.toNat ≤ 90 then Char.ofNat (c.toNat + 32) else c

/-- Embedding of JavaScript `s.toLowerCase()` (ASCII range). -/
def jsToLowerCase (s : String) : String := String.mk (s.data.map charToLower)

/-- Embedding of JavaScript `s.includes(sub)`: `sub` occurs contiguously in `s`. -/
def jsIncludes (s sub : String) : Bool := decide (sub.data <:+: s.data)

/-- The curated guaranteed-chain list, shared verbatim by `MemStorage` and
`DbStorage` (`storage.ts` lines 34-40 and 501-507). -/
def guaranteedChains : List String :=
  ["Target", "Walmart", "Kroger", "Meijer", "Chick-fil-A",
   "Panera Bread", "Love's Travel Stop", "Pilot Flying J",
   "Buc-ee's", "Barnes & Noble", "Buy Buy Baby", "Babies\"R\"Us",
   "Whole Foods Market", "Wegmans", "H-E-B", "Publix",
   "Home Depot", "Lowe's"]

/-- The chain classifier `isGuaranteedChain` (`storage.ts` lines 123-127,
509-513): case-insensitive substring match of the business name against the
curated list. -/
def isGuaranteedChain (businessName : String) : Bool :=
  guaranteedChains.any fun chain =>
    jsIncludes (jsToLowerCase businessName) (jsToLowerCase chain)

/-- A persisted changing station (row shape as constructed by
`MemStorage.createChangingStation`, lines 137-158, plus the
`isGuaranteedChain` column used by the `DbStorage` insert). -/
structure ChangingStation where
  id : Nat
  businessName : String
  address : String
  latitude : ℚ
  longitude : ℚ
  isAccessible : Option Bool
  isPrivate : Option Bool
  hasSupplies : Option Bool
  businessHours : Option String
  isOpen : Option Bool
  isVerified : Option Bool
  averageRating : ℚ
  reviewCount : Nat
  hasChangingStation : Option Bool
  negativeReports : Nat
  isGuaranteedChain : Option Bool
deriving Repr, DecidableEq

/-- A review (shape as constructed by `MemStorage.createReview`,
lines 182-202). -/
structure Review where
  id : Nat
  stationId : Nat
  authorName : String
  rating : ℚ
  isAccessible : Option Bool
  isPrivate : Option Bool
  content : Option String
  isCleanliness : Option Bool
  isWellStocked : Option Bool
  reportNoChangingStation : Option Bool
  confirmHasChangingStation : Option Bool
  createdAt : Nat
deriving Repr, DecidableEq

/-- Embedding of `Math.round(x)`: round half toward positive infinity. -/
def jsMathRound (x : ℚ) : ℤ := ⌊x + 1 / 2⌋

/-- The consensus algorithm's negative count: reviews whose
`reportNoChangingStation` flag is true. -/
def negCount (rs : List Review) : Nat :=
  (rs.filter fun r => r.reportNoChangingStation = some true).length

/-- The consensus algorithm's positive count: reviews whose
`confirmHasChangingStation` flag is true. -/
def posCount (rs : List Review) : Nat :=
  (rs.filter fun r => r.confirmHasChangingStation = some true).length

namespace DbStorage

/-- The consensus recompute of the first `DbStorage` variant
(`storage.ts` lines 569-609), as a pure function from the station row and
its current review list to the updated row.  The source reads the station
and its reviews, computes the aggregate fields, conditionally adds the
`hasChangingStation` / `isVerified` keys to the update object, and writes
it back; the written row is the value returned here. -/
def updateStationRating (station : ChangingStation) (stationReviews : List Review) :
    ChangingStation :=
  if stationReviews.length = 0 then
    { station with averageRating := 0, reviewCount := 0, negativeReports := 0 }
  else
    let totalRating : ℚ := stationReviews.foldl (fun sum review => sum + review.rating) 0
    let averageRating : ℚ := (jsMathRound ((totalRating / stationReviews.length) * 10) : ℚ) / 10
    let negativeReports :=
      (stationReviews.filter fun r => r.reportNoChangingStation = some true).length
    let positiveReviews :=
      (stationReviews.filter fun r => r.confirmHasChangingStation = some true).length
    let updated := { station with
      averageRating := averageRating
      reviewCount := stationReviews.length
      negativeReports := negativeReports }
    if negativeReports > positiveReviews then
      { updated with hasChangingStation := some false }
    else if positiveReviews > 0 then
      if isGuaranteedChain station.businessName then
        { updated with hasChangingStation := some true }
      else
        { updated with hasChangingStation := some true, isVerified := some true }
    else
      updated

end DbStorage

namespace MemStorage

/-- The consensus recompute of the first `MemStorage` variant
(`storage.ts` lines 204-240), as a pure function on the station and its
review list.  The source mutates the station in place; the mutated value
is the value returned here.  This variant guards `isVerified` behind the
guaranteed-chain check (lines 233-237). -/
def updateStationRating (station : ChangingStation) (stationReviews : List Review) :
    ChangingStation :=
  if stationReviews.length = 0 then
    { station with averageRating := 0, reviewCount := 0, negativeReports := 0 }
  else
    let totalRating : ℚ := stationReviews.foldl (fun sum review => sum + review.rating) 0
    let s1 := { station with
      averageRating := (jsMathRound ((totalRating / stationReviews.length) * 10) : ℚ) / 10
      reviewCount := stationReviews.length
      negativeReports :=
        (stationReviews.filter fun r => r.reportNoChangingStation = some true).length }
    if 1 ≤ stationReviews.length then
      let positiveReviews :=
        (stationReviews.filter fun r => r.confirmHasChangingStation = some true).length
      let negativeReviews := s1.negativeReports
      if negativeReviews > positiveReviews then
        { s1 with hasChangingStation := some false }
      else if positiveReviews > 0 then
        if isGuaranteedChain station.businessName then
          { s1 with hasChangingStation := some true }
        else
          { s1 with hasChangingStation := some true, isVerified := some true }
      else
        s1
    else
      s1

end MemStorage

namespace MemStorageB

/-- The consensus recompute of the second `MemStorage` variant
(`storage.ts` lines 1046-1078).  Identical to the first variant except in
the positive branch (lines 1073-1076), which sets `isVerified` to true
unconditionally, with no guaranteed-chain guard. -/
def updateStationRating (station : ChangingStation) (stationReviews : List Review) :
    ChangingStation :=
  if stationReviews.length = 0 then
    { station with averageRating := 0, reviewCount := 0, negativeReports := 0 }
  else
    let totalRating : ℚ := stationReviews.foldl (fun sum review => sum + review.rating) 0
    let s1 := { station with
      averageRating := (jsMathRound ((totalRating / stationReviews.length) * 10) : ℚ) / 10
      reviewCount := stationReviews.length
      negativeReports :=
        (stationReviews.filter fun r => r.reportNoChangingStation = some true).length }
    if 1 ≤ stationReviews.length then
      let positiveReviews :=
        (stationReviews.filter fun r => r.confirmHasChangingStation = some true).length
      let negativeReviews := s1.negativeReports
      if negativeReviews > positiveReviews then
        { s1 with hasChangingStation := some false }
      else if positiveReviews > 0 then
        { s1 with hasChangingStation := some true, isVerified := some true }
      else
        s1
    else
      s1

end MemStorageB

/-- Embedding of JavaScript `v || null` on an optional string: an absent or
empty (falsy) string becomes null. -/
def jsOrNullStr (v : Option String) : Option String :=
  match v with
  | some s => if s = "" then none else some s
  | none => none

/-- Embedding of JavaScript `v || null` on an optional boolean: absent or
`false` (falsy) becomes null. -/
def jsOrNullBool (v : Option Bool) : Option Bool :=
  match v with
  | some true => some true
  | _ => none

/-- The argument of `findOrCreateStationFromPlace` (fields read from
`placeData` in `storage.ts` lines 611-639). -/
structure PlaceData where
  businessName : String
  address : String
  latitude : ℚ
  longitude : ℚ
  businessHours : Option String
  isOpen : Option Bool
deriving Repr, DecidableEq

/-- Insert payload for a new station (the `stationData` literal of
`findOrCreateStationFromPlace`, lines 624-636). -/
structure InsertChangingStation where
  businessName : String
  address : String
  latitude : ℚ
  longitude : ℚ
  isAccessible : Option Bool
  isPrivate : Option Bool
  hasSupplies : Option Bool
  businessHours : Option String
  isOpen : Option Bool
  isVerified : Option Bool
  isGuaranteedChain : Option Bool
deriving Repr, DecidableEq

/-- The station store: the persisted rows in insertion order together with
the next id to assign.  For `MemStorage` this is the `changingStations` map
(JavaScript maps iterate in insertion order) with `currentStationId`; for
`DbStorage` it models the table with its serial id. -/
structure StoreState where
  rows : List ChangingStation
  nextId : Nat
deriving Repr, DecidableEq

/-- The coordinate tolerance used by reconciliation: `0.0001` degrees. -/
def coordEps : ℚ := 1 / 10000

/-- Embedding of `Math.abs`. -/
def jsMathAbs (x : ℚ) : ℚ := if x < 0 then -x else x

/-- The proximity test of `findOrCreateStationFromPlace` (lines 613-616,
246-249): both the latitude and the longitude differ by less than the
tolerance. -/
def matchesPlace (station : ChangingStation) (placeData : PlaceData) : Bool :=
  jsMathAbs (station.latitude - placeData.latitude) < coordEps &&
  jsMathAbs (station.longitude - placeData.longitude) < coordEps

namespace DbStorage

/-- Row insertion (`createChangingStation`, lines 536-539).
Modelled from the spec: `schema.ts` with the column defaults is not under
`src/`; per spec §3 and §4.4 a newly created station starts with average
rating 0, review count 0, has-changing-station true and negative-report
count 0, which matches the explicit `MemStorage.createChangingStation`
constructor in the source. -/
def createChangingStation (state : StoreState) (station : InsertChangingStation) :
    ChangingStation × StoreState :=
  let row : ChangingStation := {
    id := state.nextId
    businessName := station.businessName
    address := station.address
    latitude := station.latitude
    longitude := station.longitude
    isAccessible := station.isAccessible
    isPrivate := station.isPrivate
    hasSupplies := station.hasSupplies
    businessHours := station.businessHours
    isOpen := station.isOpen
    isVerified := station.isVerified
    averageRating := 0
    reviewCount := 0
    hasChangingStation := some true
    negativeReports := 0
    isGuaranteedChain := station.isGuaranteedChain }
  (row, ⟨state.rows ++ [row], state.nextId + 1⟩)

/-- The reconciliation engine of `DbStorage` (`storage.ts` lines 611-639):
scan all stations for one within the coordinate tolerance and return it
unchanged, else insert a new station built from the place data. -/
def findOrCreateStationFromPlace (state : StoreState) (placeData : PlaceData) :
    ChangingStation × StoreState :=
  match state.rows.find? (fun station => matchesPlace station placeData) with
  | some existing => (existing, state)
  | none =>
    let isGuaranteed := isGuaranteedChain placeData.businessName
    let stationData : InsertChangingStation := {
      businessName := placeData.businessName
      address := placeData.address
      latitude := placeData.latitude
      longitude := placeData.longitude
      isAccessible := none
      isPrivate := some false
      hasSupplies := none
      businessHours := jsOrNullStr placeData.businessHours
      isOpen := jsOrNullBool placeData.isOpen
      isVerified := some false
      isGuaranteedChain := some isGuaranteed }
    createChangingStation state stationData

end DbStorage

namespace MemStorage

/-- Row insertion (`createChangingStation`, lines 137-158).  The object
literal does not include an `isGuaranteedChain` property, so the stored row
leaves it absent. -/
def createChangingStation (state : StoreState) (station : InsertChangingStation) :
    ChangingStation × StoreState :=
  let newStation : ChangingStation := {
    id := state.nextId
    businessName := station.businessName
    address := station.address
    latitude := station.latitude
    longitude := station.longitude
    isAccessible := station.isAccessible
    isPrivate := station.isPrivate
    hasSupplies := station.hasSupplies
    businessHours := station.businessHours
    isOpen := station.isOpen
    isVerified := station.isVerified
    averageRating := 0
    reviewCount := 0
    hasChangingStation := some true
    negativeReports := 0
    isGuaranteedChain := none }
  (newStation, ⟨state.rows ++ [newStation], state.nextId + 1⟩)

/-- The reconciliation engine of `MemStorage` (`storage.ts` lines 243-280).
Identical scan-then-create logic; the created station is returned as a
spread copy with the `isGuaranteedChain` flag added (lines 276-279), while
the stored row does not carry it. -/
def findOrCreateStationFromPlace (state : StoreState) (placeData : PlaceData) :
    ChangingStation × StoreState :=
  match state.rows.find? (fun station => matchesPlace station placeData) with
  | some existing => (existing, state)
  | none =>
    let isGuaranteed := isGuaranteedChain placeData.businessName
    let stationData : InsertChangingStation := {
      businessName := placeData.businessName
      address := placeData.address
      latitude := placeData.latitude
      longitude := placeData.longitude
      isAccessible := none
      isPrivate := some false
      hasSupplies := none
      businessHours := jsOrNullStr placeData.businessHours
      isOpen := jsOrNullBool placeData.isOpen
      isVerified := some false
      isGuaranteedChain := some isGuaranteed }
    let created := createChangingStation state stationData
    ({ created.1 with isGuaranteedChain := some isGuaranteed }, created.2)

end MemStorage

/-- A category tag on a raw Foursquare place (`cat.name` may be absent). -/
structure FsqCategory where
  name : Option String
deriving Repr, DecidableEq

/-- A chain tag on a raw Foursquare place. -/
structure FsqChain where
  fsq_chain_id : String
deriving Repr, DecidableEq

/-- A raw place as consumed by the scorer and the transform (fields read
from `place` in `storage.ts` lines 387-399 and 418-496).  `name`,
`categories`, `chains` and `distance` may be absent in the provider's
payload and are optional. -/
structure FsqPlace where
  fsq_place_id : String
  name : Option String
  latitude : ℚ
  longitude : ℚ
  categories : Option (List FsqCategory)
  chains : Option (List FsqChain)
  distance : Option ℚ
deriving Repr, DecidableEq

/-- A thrown JavaScript runtime error relevant to the scoring pipeline. -/
inductive JsRuntimeError where
  /-- `ReferenceError: tier1ChainIds is not defined`, thrown by the
  `MemStorage` scorer's tier-1 check (line 440), whose chain list is
  declared under the name `priorityChainIds` (lines 428-438). -/
  | tier1ChainIdsNotDefined
  /-- `TypeError` from calling `.toLowerCase()` on an absent name, thrown by
  `isGuaranteedChain(place.name)` in the transform when `name` is absent. -/
  | toLowerCaseOfUndefined
deriving Repr, DecidableEq

/-- The scorer's guarded name read, `place.name?.toLowerCase() || ''`
(lines 420, 746): an absent name becomes the empty string. -/
def scorerName (place : FsqPlace) : String :=
  match place.name with
  | some s => jsToLowerCase s
  | none => ""

/-- Lowercased category names, `categories.map(cat => cat.name?.toLowerCase() || '')`
(lines 466, 751), with `place.categories || []` for an absent list. -/
def categoryNames (place : FsqPlace) : List String :=
  (place.categories.getD []).map fun cat =>
    match cat.name with
    | some s => jsToLowerCase s
    | none => ""

/-- The curated tier-1 chain-id list of the `MemStorage` scorer, declared
as `priorityChainIds` (`storage.ts` lines 428-438). -/
def priorityChainIds : List String :=
  ["556f7a12bd6a75a9903bddb6", "556c9aeba7c87f637869ce12",
   "556f5631bd6a75a99036ab99", "556f5631bd6a75a99036ab9b",
   "556e1846a7c82e6b72513d6b", "5665d0e560b2cc5383d258e8",
   "556f676fbd6a75a99038d8ec", "556ca0b7a7c87f63786a354b",
   "556e119fa7c82e6b725012dd"]

/-- The curated tier-2 chain-id list of the `MemStorage` scorer
(`storage.ts` lines 445-460). -/
def tier2ChainIds : List String :=
  ["556d1914aceaff43eb0a123a", "556dfa53a7c82e6b724de09d",
   "60241dda9873ff0e979a2d81", "556a3897a7c8957d73d55984",
   "556f5631bd6a75a99036ab9a", "556ce2a7aceaff43eb04b494",
   "556f46f6bd6a007c77390fae", "556f676fbd6a75a99038d8e9",
   "590b3d809411f25cbb00e94f", "556f3d48bd6a007c7737e8e4",
   "66e9905dd014de302a240305", "556f676fbd6a75a99038d8e2",
   "5d978ca330ff59000c275a70", "58ff89c9d8fe7a2faa3998ed"]

namespace MemStorage

/-- The `MemStorage` scorer (`storage.ts` lines 418-496).  The tier-1 check
(line 440) reads `chains.some(chain => tier1ChainIds.includes(...))`, but
no `tier1ChainIds` exists — the list above it is declared as
`priorityChainIds` — so evaluating the callback throws a `ReferenceError`.
With `place.chains` absent or empty, `[].some` never calls its callback:
both chain-tier checks are false without evaluating `tier1ChainIds`, and
control falls through to the category tiers (lines 465-493).  With a
non-empty chain list the first callback invocation throws, so the 3.8 and
3.2 tiers are unreachable. -/
def calculateChangingStationScore (place : FsqPlace) : Except JsRuntimeError ℚ :=
  let name := scorerName place
  let chains := place.chains.getD []
  if isGuaranteedChain name then .ok 4
  else
    match chains with
    | _ :: _ => .error .tier1ChainIdsNotDefined
    | [] =>
      let catNames := categoryNames place
      if catNames.any (fun cat =>
          jsIncludes cat "gas" || jsIncludes cat "fuel" ||
          jsIncludes cat "convenience" || jsIncludes cat "pharmacy") then .ok 3
      else if catNames.any (fun cat =>
          jsIncludes cat "restaurant" || jsIncludes cat "supermarket" ||
          jsIncludes cat "grocery") then .ok 2
      else if catNames.any (fun cat =>
          jsIncludes cat "mall" || jsIncludes cat "department store") then .ok (3 / 2)
      else .ok 1

end MemStorage

namespace DbStorage

/-- The `DbStorage` scorer (`storage.ts` lines 744-763).  No chain-id tiers
at all; the category tiers differ from the `MemStorage` variant: mall and
department store score 3 and gas/fuel score 1.5. -/
def calculateChangingStationScore (place : FsqPlace) : ℚ :=
  let name := scorerName place
  if isGuaranteedChain name then 4
  else
    let catNames := categoryNames place
    if catNames.any (fun cat =>
        jsIncludes cat "mall" || jsIncludes cat "department store") then 3
    else if catNames.any (fun cat =>
        jsIncludes cat "restaurant" || jsIncludes cat "supermarket" ||
        jsIncludes cat "grocery") then 2
    else if catNames.any (fun cat =>
        jsIncludes cat "gas" || jsIncludes cat "fuel") then 3 / 2
    else 1

end DbStorage

/-- A transformed, scored candidate as produced by `searchPlacesNearby`
(object literal at `storage.ts` lines 387-399 / 716-727). -/
structure ScoredPlace where
  fsq_id : String
  name : String
  latitude : ℚ
  longitude : ℚ
  distance : Option ℚ
  isGuaranteedChain : Bool
  changingStationScore : ℚ
deriving Repr, DecidableEq

namespace MemStorage

/-- The per-place transform of `MemStorage.searchPlacesNearby` (lines
387-399).  The object literal evaluates `isGuaranteedChain(place.name)`,
which throws a `TypeError` when the name is absent, and then the scorer,
which can throw the `tier1ChainIds` `ReferenceError`. -/
def transformPlace (place : FsqPlace) : Except JsRuntimeError ScoredPlace :=
  match place.name with
  | none => .error .toLowerCaseOfUndefined
  | some n => do
    let score ← calculateChangingStationScore place
    .ok { fsq_id := place.fsq_place_id
          name := n
          latitude := place.latitude
          longitude := place.longitude
          distance := place.distance
          isGuaranteedChain := isGuaranteedChain n
          changingStationScore := score }

end MemStorage

namespace DbStorage

/-- The per-place transform of `DbStorage.searchPlacesNearby` (lines
716-727); the scorer is total here, but the classifier call still throws on
an absent name. -/
def transformPlace (place : FsqPlace) : Except JsRuntimeError ScoredPlace :=
  match place.name with
  | none => .error .toLowerCaseOfUndefined
  | some n =>
    .ok { fsq_id := place.fsq_place_id
          name := n
          latitude := place.latitude
          longitude := place.longitude
          distance := place.distance
          isGuaranteedChain := isGuaranteedChain n
          changingStationScore := calculateChangingStationScore place }

end DbStorage

/-- Embedding of the comparator's `d || Infinity` (lines 408, 735): an
absent distance, or a distance of exactly 0 (both falsy), becomes
infinity, represented here by `none`. -/
def jsOrInfinity (d : Option ℚ) : Option ℚ :=
  match d with
  | none => none
  | some x => if x = 0 then none else some x

/-- Sign of a subtraction of two rationals, as an `Ordering`. -/
def qCmp (x y : ℚ) : Ordering :=
  if x < y then .lt else if y < x then .gt else .eq

/-- Sign of `(a.distance || Infinity) - (b.distance || Infinity)`.  When
both are infinity the JavaScript subtraction yields `NaN`, which `sort`
treats as 0, i.e. equal. -/
def distCmp (da db : Option ℚ) : Ordering :=
  match jsOrInfinity da, jsOrInfinity db with
  | none, none => .eq
  | none, some _ => .gt
  | some _, none => .lt
  | some x, some y => qCmp x y

/-- The ranking comparator passed to `transformedResults.sort` (lines
402-409 and 729-736): guaranteed chains first, then score descending, then
effective distance ascending. -/
def rankOrd (a b : ScoredPlace) : Ordering :=
  if a.isGuaranteedChain && !b.isGuaranteedChain then .lt
  else if !a.isGuaranteedChain && b.isGuaranteedChain then .gt
  else if a.changingStationScore ≠ b.changingStationScore then
    qCmp b.changingStationScore a.changingStationScore
  else distCmp a.distance b.distance

/-- The non-strict order induced by the ranking comparator: `a` may stay
before `b` exactly when the comparator does not return a positive value. -/
def rankLe (a b : ScoredPlace) : Prop := rankOrd a b ≠ Ordering.gt

instance : DecidableRel rankLe := fun a b => by unfold rankLe; infer_instance

/-- The sort of the transformed results.  `Array.prototype.sort` is
stable, and a stable sort under a comparator derived from a total preorder
is unique, so it is modelled by the stable insertion sort ordered by the
comparator. -/
def sortPlaces (l : List ScoredPlace) : List ScoredPlace :=
  l.insertionSort rankLe

/-- Rank of the guaranteed flag in the comparator: guaranteed sorts first. -/
def gRank (a : ScoredPlace) : Nat := if a.isGuaranteedChain then 0 else 1

/-- The effective distance the comparator orders by, with infinity as `⊤`. -/
def eDist (d : Option ℚ) : WithTop ℚ :=
  match jsOrInfinity d with
  | none => ⊤
  | some x => (x : WithTop ℚ)

/-- Outcome of the provider call made by `searchPlacesNearby`: the `fetch`
or a later step of the `try` block throws, the response is non-2xx, or a
JSON body is obtained (whose `results` array may be absent). -/
inductive FetchOutcome where
  | fetchFailed (msg : String)
  | httpError (status : Nat) (body : String)
  | success (results : Option (List FsqPlace))
deriving Repr, DecidableEq

namespace MemStorage

/-- The Foursquare search of `MemStorage` (`storage.ts` lines 283-415),
with the provider interaction abstracted into the configured key and the
fetch outcome.  Every failure path returns the empty list: a missing key
(lines 285-288), a thrown error (caught at lines 411-414), a non-2xx
response (lines 362-370), an absent or empty `results` array (lines
381-384), and a transform that throws (caught by the same `catch`). -/
def searchPlacesNearby (lat lng radiusKm : ℚ) (query : Option String)
    (foursquareApiKey : Option String) (outcome : FetchOutcome) : List ScoredPlace :=
  match foursquareApiKey with
  | none => []
  | some _ =>
    match outcome with
    | .fetchFailed _ => []
    | .httpError _ _ => []
    | .success none => []
    | .success (some results) =>
      if results.length = 0 then []
      else
        match results.mapM transformPlace with
        | .error _ => []
        | .ok transformedResults => sortPlaces transformedResults

end MemStorage

namespace DbStorage

/-- The Foursquare search of `DbStorage` (`storage.ts` lines 641-742), same
shape as the `MemStorage` variant: every failure path returns the empty
list. -/
def searchPlacesNearby (lat lng radiusKm : ℚ) (query : Option String)
    (foursquareApiKey : Option String) (outcome : FetchOutcome) : List ScoredPlace :=
  match foursquareApiKey with
  | none => []
  | some _ =>
    match outcome with
    | .fetchFailed _ => []
    | .httpError _ _ => []
    | .success none => []
    | .success (some results) =>
      if results.length = 0 then []
      else
        match results.mapM transformPlace with
        | .error _ => []
        | .ok transformedResults => sortPlaces transformedResults

end DbStorage

/-- The category tier table exactly as claim C5 words it: case-insensitive
substring matching over the category names, first match wins —
fuel/gas/convenience/pharmacy give 3, then restaurant/supermarket/grocery
give 2, then mall/department-store give 1.5, else 1. -/
def claimedCategoryTier (catNames : List String) : ℚ :=
  if catNames.any (fun cat =>
      jsIncludes cat "fuel" || jsIncludes cat "gas" ||
      jsIncludes cat "convenience" || jsIncludes cat "pharmacy") then 3
  else if catNames.any (fun cat =>
      jsIncludes cat "restaurant" || jsIncludes cat "supermarket" ||
      jsIncludes cat "grocery") then 2
  else if catNames.any (fun cat =>
      jsIncludes cat "mall" || jsIncludes cat "department store") then 3 / 2
  else 1

/-- Concrete guaranteed-chain station (name as in the sample data) whose
verified flag is off, used to exercise the consensus recompute. -/
def stationTargetGallatin : ChangingStation :=
  { id := 2, businessName := "Target - Nashville Gallatin Pike",
    address := "2491 Gallatin Pike, Nashville, TN 37216",
    latitude := 36.1866, longitude := -86.7311,
    isAccessible := some true, isPrivate := some false, hasSupplies := some true,
    businessHours := none, isOpen := some true, isVerified := some false,
    averageRating := 0, reviewCount := 0, hasChangingStation := some true,
    negativeReports := 0, isGuaranteedChain := some true }

/-- Concrete review confirming the presence of a changing station. -/
def reviewConfirm : Review :=
  { id := 1, stationId := 2, authorName := "Sam", rating := 5,
    isAccessible := none, isPrivate := none, content := none,
    isCleanliness := none, isWellStocked := none,
    reportNoChangingStation := none, confirmHasChangingStation := some true,
    createdAt := 0 }

/-- Concrete review reporting that there is no changing station. -/
def reviewNoStation : Review :=
  { id := 2, stationId := 7, authorName := "Kim", rating := 1,
    isAccessible := none, isPrivate := none, content := none,
    isCleanliness := none, isWellStocked := none,
    reportNoChangingStation := some true, confirmHasChangingStation := none,
    createdAt := 0 }

/-- Concrete already-verified non-chain station. -/
def stationVerified : ChangingStation :=
  { id := 7, businessName := "Corner Cafe",
    address := "1 Main St",
    latitude := 36, longitude := -86,
    isAccessible := none, isPrivate := some false, hasSupplies := none,
    businessHours := none, isOpen := some true, isVerified := some true,
    averageRating := 0, reviewCount := 0, hasChangingStation := some true,
    negativeReports := 0, isGuaranteedChain := none }

/-- Stored station 0.00015 degrees of latitude north of the origin. -/
def stationNearOrigin : ChangingStation :=
  { id := 1, businessName := "Shell - I-40",
    address := "2421 Music Valley Dr",
    latitude := 3 / 20000, longitude := 0,
    isAccessible := none, isPrivate := some false, hasSupplies := none,
    businessHours := none, isOpen := none, isVerified := some false,
    averageRating := 0, reviewCount := 0, hasChangingStation := some true,
    negativeReports := 0, isGuaranteedChain := none }

/-- Stored station exactly at the origin. -/
def stationAtOrigin : ChangingStation :=
  { id := 2, businessName := "Exxon - I-65",
    address := "111 Old Hickory Blvd",
    latitude := 0, longitude := 0,
    isAccessible := none, isPrivate := some false, hasSupplies := none,
    businessHours := none, isOpen := none, isVerified := some false,
    averageRating := 0, reviewCount := 0, hasChangingStation := some true,
    negativeReports := 0, isGuaranteedChain := none }

/-- Store holding the two stations above, in insertion order. -/
def storeTwoStations : StoreState := ⟨[stationNearOrigin, stationAtOrigin], 3⟩

/-- Place candidate at the origin. -/
def placeAtOrigin : PlaceData :=
  { businessName := "Joe's Diner", address := "5 Broadway",
    latitude := 0, longitude := 0, businessHours := none, isOpen := none }

/-- Place candidate 0.00009 degrees of latitude north of the origin — within
the tolerance of `placeAtOrigin`. -/
def placeNearOrigin : PlaceData :=
  { businessName := "Joe's Diner", address := "5 Broadway",
    latitude := 9 / 100000, longitude := 0, businessHours := none, isOpen := none }

/-- The empty store. -/
def storeEmpty : StoreState := ⟨[], 1⟩

/-- Raw place named after a guaranteed chain, with category and chain data
absent. -/
def placeTarget : FsqPlace :=
  { fsq_place_id := "fsq1", name := some "Target",
    latitude := 36, longitude := -86,
    categories := none, chains := none, distance := none }

/-- Raw place with a convenience-store category and an empty chain list. -/
def placeQuickMart : FsqPlace :=
  { fsq_place_id := "fsq2", name := some "Quick Mart",
    latitude := 36, longitude := -86,
    categories := some [⟨some "Convenience Store"⟩], chains := some [],
    distance := some 12 }

/-- Raw place with a gas-station category and no chain data. -/
def placeMusicCityGas : FsqPlace :=
  { fsq_place_id := "fsq3", name := some "Music City Gas",
    latitude := 36, longitude := -86,
    categories := some [⟨some "Gas Station"⟩], chains := none,
    distance := none }

/-- Raw place carrying the Shell chain id from the curated tier-1 list. -/
def placeShellStation : FsqPlace :=
  { fsq_place_id := "fsq4", name := some "Shell Station 42",
    latitude := 36, longitude := -86,
    categories := some [⟨some "Gas Station"⟩],
    chains := some [⟨"556f7a12bd6a75a9903bddb6"⟩],
    distance := some 100 }

/-- Scored candidate whose raw distance is exactly 0. -/
def scoredAtZeroDist : ScoredPlace :=
  { fsq_id := "a", name := "Joe's Diner", latitude := 0, longitude := 0,
    distance := some 0, isGuaranteedChain := false, changingStationScore := 2 }

/-- Scored candidate at positive distance 5, same flag and score. -/
def scoredAtFiveDist : ScoredPlace :=
  { fsq_id := "b", name := "Music Cafe", latitude := 0, longitude := 0,
    distance := some 5, isGuaranteedChain := false, changingStationScore := 2 }

/-- Scored candidate whose raw distance is 0, for the comparator witness. -/
def scoredZeroW : ScoredPlace :=
  { fsq_id := "c", name := "Corner Cafe", latitude := 0, longitude := 0,
    distance := some 0, isGuaranteedChain := false, changingStationScore := 3 }

/-- Scored candidate at positive distance 250, same flag and score. -/
def scoredFarW : ScoredPlace :=
  { fsq_id := "d", name := "Depot Diner", latitude := 0, longitude := 0,
    distance := some 250, isGuaranteedChain := false, changingStationScore := 3 }

/-- The station row that reconciliation inserts for a place candidate when
no existing station matches. -/
def newStationFromPlace (state : StoreState) (placeData : PlaceData) : ChangingStation :=
  (DbStorage.createChangingStation state
    { businessName := placeData.businessName
      address := placeData.address
      latitude := placeData.latitude
      longitude := placeData.longitude
      isAccessible := none
      isPrivate := some false
      hasSupplies := none
      businessHours := jsOrNullStr placeData.businessHours
      isOpen := jsOrNullBool placeData.isOpen
      isVerified := some false
      isGuaranteedChain := some (isGuaranteedChain placeData.businessName) }).1

/-- The station row that the `MemStorage` reconciliation stores for a place
candidate when no existing station matches: same insert payload, but the
`MemStorage` constructor drops the `isGuaranteedChain` property, so the
stored row leaves it absent (the spread copy returned to the caller adds it
back). -/
def memNewStationFromPlace (state : StoreState) (placeData : PlaceData) : ChangingStation :=
  (MemStorage.createChangingStation state
    { businessName := placeData.businessName
      address := placeData.address
      latitude := placeData.latitude
      longitude := placeData.longitude
      isAccessible := none
      isPrivate := some false
      hasSupplies := none
      businessHours := jsOrNullStr placeData.businessHours
      isOpen := jsOrNullBool placeData.isOpen
      isVerified := some false
      isGuaranteedChain := some (isGuaranteedChain placeData.businessName) }).1

lemma qCmp_ne_gt_iff {x y : ℚ} : qCmp x y ≠ Ordering.gt ↔ x ≤ y := by
  unfold qCmp
  split_ifs with h1 h2
  · simp [le_of_lt h1]
  · simp [not_le.mpr h2]
  · simp [le_of_not_lt h2]

lemma distCmp_ne_gt_iff {da db : Option ℚ} :
    distCmp da db ≠ Ordering.gt ↔ eDist da ≤ eDist db := by
  unfold distCmp eDist
  cases h1 : jsOrInfinity da <;> cases h2 : jsOrInfinity db
  · simp
  · simp
  · simp
  · simpa using qCmp_ne_gt_iff

lemma rankLe_iff {a b : ScoredPlace} :
    rankLe a b ↔
      gRank a < gRank b ∨
        (gRank a = gRank b ∧
          (b.changingStationScore < a.changingStationScore ∨
            (b.changingStationScore = a.changingStationScore ∧
              eDist a.distance ≤ eDist b.distance))) := by
  unfold rankLe rankOrd gRank
  cases hag : a.isGuaranteedChain <;> cases hbg : b.isGuaranteedChain <;>
    simp only [hag, hbg, Bool.true_and, Bool.false_and, Bool.and_true, Bool.and_false,
      Bool.not_true, Bool.not_false, if_true, if_false, Bool.false_eq_true, ite_true, ite_false]
  · by_cases hs : a.changingStationScore = b.changingStationScore
    · simp only [hs, ne_eq, not_true_eq_false, ite_false]
      rw [← ne_eq, distCmp_ne_gt_iff]
      constructor
      · intro h
        exact Or.inr ⟨trivial, Or.inr ⟨trivial, h⟩⟩
      · rintro (h | ⟨-, h | ⟨-, h⟩⟩)
        · omega
        · exact absurd h (lt_irrefl _)
        · exact h
    · simp only [ne_eq, hs, not_false_eq_true, ite_true]
      rw [← ne_eq, qCmp_ne_gt_iff]
      constructor
      · intro h
        exact Or.inr ⟨trivial, Or.inl (lt_of_le_of_ne h (fun e => hs e.symm))⟩
      · rintro (h | ⟨-, h | ⟨h, -⟩⟩)
        · omega
        · exact le_of_lt h
        · exact absurd h.symm hs
  · simp
  · simp
  · by_cases hs : a.changingStationScore = b.changingStationScore
    · simp only [hs, ne_eq, not_true_eq_false, ite_false]
      rw [← ne_eq, distCmp_ne_gt_iff]
      constructor
      · intro h
        exact Or.inr ⟨trivial, Or.inr ⟨trivial, h⟩⟩
      · rintro (h | ⟨-, h | ⟨-, h⟩⟩)
        · omega
        · exact absurd h (lt_irrefl _)
        · exact h
    · simp only [ne_eq, hs, not_false_eq_true, ite_true]
      rw [← ne_eq, qCmp_ne_gt_iff]
      constructor
      · intro h
        exact Or.inr ⟨trivial, Or.inl (lt_of_le_of_ne h (fun e => hs e.symm))⟩
      · rintro (h | ⟨-, h | ⟨h, -⟩⟩)
        · omega
        · exact le_of_lt h
        · exact absurd h.symm hs

instance : IsTotal ScoredPlace rankLe := by
  constructor
  intro a b
  rw [rankLe_iff, rankLe_iff]
  rcases Nat.lt_trichotomy (gRank a) (gRank b) with hg | hg | hg
  · exact Or.inl (Or.inl hg)
  · rcases lt_trichotomy a.changingStationScore b.changingStationScore with hs | hs | hs
    · exact Or.inr (Or.inr ⟨hg.symm, Or.inl hs⟩)
    · rcases le_total (eDist a.distance) (eDist b.distance) with hd | hd
      · exact Or.inl (Or.inr ⟨hg, Or.inr ⟨hs.symm, hd⟩⟩)
      · exact Or.inr (Or.inr ⟨hg.symm, Or.inr ⟨hs, hd⟩⟩)
    · exact Or.inl (Or.inr ⟨hg, Or.inl hs⟩)
  · exact Or.inr (Or.inl hg)

instance : IsTrans ScoredPlace rankLe := by
  constructor
  intro a b c hab hbc
  rw [rankLe_iff] at hab hbc ⊢
  rcases hab with hab | ⟨hab, hab2⟩
  · rcases hbc with hbc | ⟨hbc, -⟩
    · exact Or.inl (hab.trans hbc)
    · exact Or.inl (hbc ▸ hab)
  · rcases hbc with hbc | ⟨hbc, hbc2⟩
    · exact Or.inl (hab ▸ hbc)
    · refine Or.inr ⟨hab.trans hbc, ?_⟩
      rcases hab2 with hs1 | ⟨hs1, hd1⟩
      · rcases hbc2 with hs2 | ⟨hs2, -⟩
        · exact Or.inl (hs2.trans hs1)
        · exact Or.inl (hs2 ▸ hs1)
      · rcases hbc2 with hs2 | ⟨hs2, hd2⟩
        · exact Or.inl (hs1 ▸ hs2)
        · exact Or.inr ⟨hs2.trans hs1, hd1.trans hd2⟩

lemma rankLe_of_rankOrd_eq {a b : ScoredPlace} (h : rankOrd a b = Ordering.eq) :
    rankLe a b := by
  unfold rankLe
  simp [h]

lemma rankOrd_eq_of_keys_eq {a b : ScoredPlace}
    (hg : a.isGuaranteedChain = b.isGuaranteedChain)
    (hs : a.changingStationScore = b.changingStationScore)
    (hd : a.distance = b.distance) : rankOrd a b = Ordering.eq := by
  unfold rankOrd distCmp qCmp
  rw [hg, hs, hd]
  cases hb : b.isGuaranteedChain <;>
    simp only [Bool.and_not_self, Bool.not_and_self, Bool.and_false, Bool.false_and,
      Bool.and_self, Bool.not_true, Bool.not_false, Bool.and_true, Bool.true_and,
      if_false, ite_false, ne_eq, not_true_eq_false] <;>
  · cases jsOrInfinity b.distance <;> simp [lt_irrefl]

lemma toNat_ofNat_add32 {n : ℕ} (h1 : 65 ≤ n) (h2 : n ≤ 90) :
    (Char.ofNat (n + 32)).toNat = n + 32 := by
  interval_cases n <;> decide

lemma charToLower_idem (c : Char) : charToLower (charToLower c) = charToLower c := by
  unfold charToLower
  by_cases h : 65 ≤ c.toNat ∧ c.toNat ≤ 90
  · rw [if_pos h, if_neg]
    rw [toNat_ofNat_add32 h.1 h.2]
    omega
  · rw [if_neg h, if_neg h]

lemma jsToLowerCase_idem (s : String) :
    jsToLowerCase (jsToLowerCase s) = jsToLowerCase s := by
  simp only [jsToLowerCase, List.map_map]
  congr 1
  exact List.map_congr_left fun c _ => charToLower_idem c

lemma isGuaranteedChain_jsToLowerCase (s : String) :
    isGuaranteedChain (jsToLowerCase s) = isGuaranteedChain s := by
  simp [isGuaranteedChain, jsToLowerCase_idem]

lemma scorerName_guaranteed {place : FsqPlace} {n : String} (h : place.name = some n) :
    isGuaranteedChain (scorerName place) = isGuaranteedChain n := by
  simp [scorerName, h, isGuaranteedChain_jsToLowerCase]

lemma db_update_isVerified_mono (st : ChangingStation) (rs : List Review)
    (h : st.isVerified = some true) :
    (DbStorage.updateStationRating st rs).isVerified = some true := by
  unfold DbStorage.updateStationRating
  dsimp only
  split_ifs <;> simp [h]

lemma mem_update_isVerified_mono (st : ChangingStation) (rs : List Review)
    (h : st.isVerified = some true) :
    (MemStorage.updateStationRating st rs).isVerified = some true := by
  unfold MemStorage.updateStationRating
  dsimp only
  split_ifs <;> simp [h]

lemma memB_update_isVerified_mono (st : ChangingStation) (rs : List Review)
    (h : st.isVerified = some true) :
    (MemStorageB.updateStationRating st rs).isVerified = some true := by
  unfold MemStorageB.updateStationRating
  dsimp only
  split_ifs <;> simp [h]

lemma foldl_isVerified_mono {g : ChangingStation → List Review → ChangingStation}
    (hg : ∀ st rs, st.isVerified = some true → (g st rs).isVerified = some true) :
    ∀ (sets : List (List Review)) (st : ChangingStation),
      st.isVerified = some true → (sets.foldl g st).isVerified = some true := by
  intro sets
  induction sets with
  | nil => intro st h; simpa using h
  | cons rs rest ih =>
    intro st h
    simpa using ih (g st rs) (hg st rs h)

/-- C1 counterexample: on the guaranteed-chain station `Target - Nashville
Gallatin Pike` with one confirming review, the cited `MemStorage`
recompute variant sets the verified flag to true, although the claim says
verified is set `unless` the business name matches the guaranteed-chain
classifier. -/
theorem c1_counterexample :
    isGuaranteedChain stationTargetGallatin.businessName = true ∧
    stationTargetGallatin.isVerified = some false ∧
    (MemStorageB.updateStationRating stationTargetGallatin [reviewConfirm]).isVerified =
      some true ∧
    (MemStorageB.updateStationRating stationTargetGallatin [reviewConfirm]).hasChangingStation =
      some true := by
  decide

/-- C1 (amended): for every station with at least one review, both cited
recomputes set has-changing-station false and leave verified unchanged
under a strict negative majority, and set has-changing-station true when
the confirm count is positive; in that branch `DbStorage` sets verified
true unless the station's business name matches the guaranteed-chain
classifier (leaving it unchanged for guaranteed chains), while the cited
`MemStorage` variant sets verified true unconditionally; in every other
case both flags are left unchanged. -/
theorem c1_consensus_flags (station : ChangingStation) (stationReviews : List Review)
    (hne : stationReviews ≠ []) :
    (negCount stationReviews > posCount stationReviews →
      (DbStorage.updateStationRating station stationReviews).hasChangingStation = some false ∧
      (DbStorage.updateStationRating station stationReviews).isVerified = station.isVerified ∧
      (MemStorageB.updateStationRating station stationReviews).hasChangingStation = some false ∧
      (MemStorageB.updateStationRating station stationReviews).isVerified = station.isVerified) ∧
    (¬ negCount stationReviews > posCount stationReviews → 0 < posCount stationReviews →
      (DbStorage.updateStationRating station stationReviews).hasChangingStation = some true ∧
      (isGuaranteedChain station.businessName = true →
        (DbStorage.updateStationRating station stationReviews).isVerified = station.isVerified) ∧
      (isGuaranteedChain station.businessName = false →
        (DbStorage.updateStationRating station stationReviews).isVerified = some true) ∧
      (MemStorageB.updateStationRating station stationReviews).hasChangingStation = some true ∧
      (MemStorageB.updateStationRating station stationReviews).isVerified = some true) ∧
    (¬ negCount stationReviews > posCount stationReviews → posCount stationReviews = 0 →
      (DbStorage.updateStationRating station stationReviews).hasChangingStation =
        station.hasChangingStation ∧
      (DbStorage.updateStationRating station stationReviews).isVerified = station.isVerified ∧
      (MemStorageB.updateStationRating station stationReviews).hasChangingStation =
        station.hasChangingStation ∧
      (MemStorageB.updateStationRating station stationReviews).isVerified = station.isVerified) := by
  have hlen : ¬ stationReviews.length = 0 := fun h0 => hne (List.length_eq_zero.mp h0)
  have hone : 1 ≤ stationReviews.length :=
    Nat.one_le_iff_ne_zero.mpr (fun h0 => hne (List.length_eq_zero.mp h0))
  unfold negCount posCount DbStorage.updateStationRating MemStorageB.updateStationRating
  dsimp only
  rw [if_neg hlen, if_neg hlen, if_pos hone]
  split_ifs with hgt hpos hguar
  · exact ⟨fun _ => ⟨rfl, rfl, rfl, rfl⟩,
      fun hn _ => absurd hgt hn,
      fun hn _ => absurd hgt hn⟩
  · refine ⟨fun hgt2 => absurd hgt2 hgt,
      fun _ _ => ⟨rfl, fun _ => rfl, fun hgf => ?_, rfl, rfl⟩,
      fun _ hzero => ?_⟩
    · rw [hguar] at hgf
      exact Bool.noConfusion hgf
    · rw [hzero] at hpos
      exact absurd hpos (lt_irrefl 0)
  · refine ⟨fun hgt2 => absurd hgt2 hgt,
      fun _ _ => ⟨rfl, fun hgt3 => absurd hgt3 hguar, fun _ => rfl, rfl, rfl⟩,
      fun _ hzero => ?_⟩
    · rw [hzero] at hpos
      exact absurd hpos (lt_irrefl 0)
  · exact ⟨fun hgt2 => absurd hgt2 hgt,
      fun _ hpos2 => absurd hpos2 hpos,
      fun _ _ => ⟨rfl, rfl, rfl, rfl⟩⟩

/-- C1 witness: the amended theorem applied to the guaranteed-chain
station with a single confirming review. -/
theorem c1_consensus_flags_witness :
    (DbStorage.updateStationRating stationTargetGallatin [reviewConfirm]).hasChangingStation =
      some true ∧
    (DbStorage.updateStationRating stationTargetGallatin [reviewConfirm]).isVerified =
      stationTargetGallatin.isVerified ∧
    (MemStorageB.updateStationRating stationTargetGallatin [reviewConfirm]).isVerified =
      some true := by
  have h := (c1_consensus_flags stationTargetGallatin [reviewConfirm]
    (by decide)).2.1 (by decide) (by decide)
  exact ⟨h.1, h.2.1 (by decide), h.2.2.2.2⟩

/-- C2: no branch of any consensus-recompute variant ever assigns
verified = false, so once a station's verified flag is true it remains
true across every sequence of recomputations (review insertion itself
never touches station fields). -/
theorem c2_verified_persists (station : ChangingStation)
    (reviewSets : List (List Review)) (h : station.isVerified = some true) :
    (reviewSets.foldl DbStorage.updateStationRating station).isVerified = some true ∧
    (reviewSets.foldl MemStorage.updateStationRating station).isVerified = some true ∧
    (reviewSets.foldl MemStorageB.updateStationRating station).isVerified = some true :=
  ⟨foldl_isVerified_mono db_update_isVerified_mono reviewSets station h,
   foldl_isVerified_mono mem_update_isVerified_mono reviewSets station h,
   foldl_isVerified_mono memB_update_isVerified_mono reviewSets station h⟩

/-- C2 witness: a verified station stays verified through a negative wave
followed by a mixed recompute. -/
theorem c2_verified_persists_witness :
    (([[reviewNoStation], [reviewConfirm, reviewNoStation]]).foldl
        DbStorage.updateStationRating stationVerified).isVerified = some true ∧
    (([[reviewNoStation], [reviewConfirm, reviewNoStation]]).foldl
        MemStorage.updateStationRating stationVerified).isVerified = some true ∧
    (([[reviewNoStation], [reviewConfirm, reviewNoStation]]).foldl
        MemStorageB.updateStationRating stationVerified).isVerified = some true :=
  c2_verified_persists stationVerified [[reviewNoStation], [reviewConfirm, reviewNoStation]] rfl

/-- C8: with zero reviews the consensus recompute resets average rating,
review count and negative-report count to 0 and leaves every other field
of the station — in particular the verified and has-changing-station
flags — unchanged, in both cited variants. -/
theorem c8_zero_reviews_reset (station : ChangingStation) :
    DbStorage.updateStationRating station [] =
      { station with averageRating := 0, reviewCount := 0, negativeReports := 0 } ∧
    MemStorage.updateStationRating station [] =
      { station with averageRating := 0, reviewCount := 0, negativeReports := 0 } :=
  ⟨rfl, rfl⟩

/-- C4: a candidate whose name matches the guaranteed-chain classifier
scores exactly 4 in both scorer variants, regardless of its category and
chain data (both may be absent). -/
theorem c4_guaranteed_scores_four (place : FsqPlace) (n : String)
    (hn : place.name = some n) (hg : isGuaranteedChain n = true) :
    MemStorage.calculateChangingStationScore place = .ok 4 ∧
    DbStorage.calculateChangingStationScore place = 4 := by
  have h : isGuaranteedChain (scorerName place) = true :=
    (scorerName_guaranteed hn).trans hg
  constructor
  · unfold MemStorage.calculateChangingStationScore
    dsimp only
    rw [if_pos h]
  · unfold DbStorage.calculateChangingStationScore
    dsimp only
    rw [if_pos h]

/-- C4 witness: the classifier matches `Target` and the scorers give 4 with
category and chain data absent. -/
theorem c4_guaranteed_scores_four_witness :
    MemStorage.calculateChangingStationScore placeTarget = .ok 4 ∧
    DbStorage.calculateChangingStationScore placeTarget = 4 :=
  c4_guaranteed_scores_four placeTarget "Target" rfl (by decide)

/-- C5 (amended): for a candidate that does not match the guaranteed-chain
classifier and whose chain list is absent or empty, the `MemStorage` scorer
follows the claimed category tier table (fuel/gas/convenience/pharmacy 3,
restaurant/supermarket/grocery 2, mall/department-store 1.5, else 1); the
`DbStorage` scorer does not follow that table, and a candidate with a
non-empty chain list makes the `MemStorage` scorer throw instead.  (The source writes the
1.5 tier literally; it is written `3 / 2` here.) -/
theorem c5_category_tiers (place : FsqPlace)
    (hchains : place.chains = none ∨ place.chains = some [])
    (hgn : ∀ n, place.name = some n → isGuaranteedChain n = false) :
    MemStorage.calculateChangingStationScore place =
      .ok (claimedCategoryTier (categoryNames place)) := by
  have hscorer : isGuaranteedChain (scorerName place) = false := by
    cases hpn : place.name with
    | some n => rw [scorerName_guaranteed hpn]; exact hgn n hpn
    | none => unfold scorerName; rw [hpn]; decide
  have hany : ∀ (l : List String),
      (l.any fun cat => jsIncludes cat "gas" || jsIncludes cat "fuel" ||
        jsIncludes cat "convenience" || jsIncludes cat "pharmacy") =
      (l.any fun cat => jsIncludes cat "fuel" || jsIncludes cat "gas" ||
        jsIncludes cat "convenience" || jsIncludes cat "pharmacy") := by
    intro l
    induction l with
    | nil => rfl
    | cons a t ih =>
      simp only [List.any_cons, ih]
      cases jsIncludes a "gas" <;> cases jsIncludes a "fuel" <;> simp
  unfold MemStorage.calculateChangingStationScore claimedCategoryTier
  dsimp only
  rw [if_neg (by simp [hscorer])]
  rcases hchains with h | h <;> rw [h] <;> dsimp only [Option.getD] <;>
    rw [hany (categoryNames place)] <;> split_ifs <;> rfl

/-- C5 witness: the amended theorem applied to a convenience-store
candidate with an empty chain list; the tier table gives 3. -/
theorem c5_category_tiers_witness :
    MemStorage.calculateChangingStationScore placeQuickMart =
      .ok (claimedCategoryTier (categoryNames placeQuickMart)) ∧
    claimedCategoryTier (categoryNames placeQuickMart) = 3 :=
  ⟨c5_category_tiers placeQuickMart (Or.inr rfl)
      (fun n h => (Option.some.inj h) ▸ (by decide : isGuaranteedChain "Quick Mart" = false)),
   by decide⟩

/-- C5 counterexample: on a non-guaranteed candidate with a `Gas Station`
category and no chain data, the cited `DbStorage` scorer returns 1.5 where
the claimed tier table requires 3. -/
theorem c5_counterexample :
    isGuaranteedChain "Music City Gas" = false ∧
    placeMusicCityGas.chains = none ∧
    DbStorage.calculateChangingStationScore placeMusicCityGas = 3 / 2 ∧
    claimedCategoryTier (categoryNames placeMusicCityGas) = 3 := by
  refine ⟨by decide, rfl, rfl, by decide⟩

/-- C6 (code bug): the `MemStorage` scorer's tier-1 check references
`tier1ChainIds`, which is not defined (the list above it is declared as
`priorityChainIds`), so any non-guaranteed candidate with a non-empty chain
list — here one carrying the curated Shell chain id — makes the scorer
throw a `ReferenceError` instead of returning 3.8; the `DbStorage` scorer
has no chain-id tiers at all and falls back to its category table. -/
theorem c6_chain_tier_reference_error :
    isGuaranteedChain "Shell Station 42" = false ∧
    placeShellStation.chains = some [⟨"556f7a12bd6a75a9903bddb6"⟩] ∧
    "556f7a12bd6a75a9903bddb6" ∈ priorityChainIds ∧
    MemStorage.calculateChangingStationScore placeShellStation =
      .error .tier1ChainIdsNotDefined ∧
    DbStorage.calculateChangingStationScore placeShellStation = 3 / 2 := by
  refine ⟨by decide, rfl, by decide, rfl, rfl⟩

/-- C9: for every input, a failing places-search provider — missing API
key, thrown fetch error, or non-2xx response — makes both
`searchPlacesNearby` variants return the empty list rather than raising. -/
theorem c9_provider_failure_empty (lat lng radiusKm : ℚ) (query : Option String)
    (foursquareApiKey : Option String) (outcome : FetchOutcome)
    (hfail : foursquareApiKey = none ∨ (∃ msg, outcome = .fetchFailed msg) ∨
      ∃ status body, outcome = .httpError status body) :
    MemStorage.searchPlacesNearby lat lng radiusKm query foursquareApiKey outcome = [] ∧
    DbStorage.searchPlacesNearby lat lng radiusKm query foursquareApiKey outcome = [] := by
  rcases hfail with h | ⟨msg, h⟩ | ⟨status, body, h⟩
  · subst h
    exact ⟨rfl, rfl⟩
  · subst h
    cases foursquareApiKey <;> exact ⟨rfl, rfl⟩
  · subst h
    cases foursquareApiKey <;> exact ⟨rfl, rfl⟩

/-- C9 witness: a concrete query with no API key configured yields the
empty list from both variants. -/
theorem c9_provider_failure_empty_witness :
    MemStorage.searchPlacesNearby 36.1513 (-86.8025) 16 none none (.success none) = [] ∧
    DbStorage.searchPlacesNearby 36.1513 (-86.8025) 16 none none (.success none) = [] :=
  c9_provider_failure_empty 36.1513 (-86.8025) 16 none none (.success none) (Or.inl rfl)

/-- C3 counterexample: with two stored stations 0.00015 degrees apart and
two candidates within the tolerance of each other, the first call returns
the station at the origin while the second call returns the other station:
the two calls do not return the same station, in both cited
reconciliation variants. -/
theorem c3_counterexample :
    jsMathAbs (placeAtOrigin.latitude - placeNearOrigin.latitude) < coordEps ∧
    jsMathAbs (placeAtOrigin.longitude - placeNearOrigin.longitude) < coordEps ∧
    (DbStorage.findOrCreateStationFromPlace storeTwoStations placeAtOrigin).1 =
      stationAtOrigin ∧
    (DbStorage.findOrCreateStationFromPlace
      (DbStorage.findOrCreateStationFromPlace storeTwoStations placeAtOrigin).2
      placeNearOrigin).1 = stationNearOrigin ∧
    (MemStorage.findOrCreateStationFromPlace storeTwoStations placeAtOrigin).1 =
      stationAtOrigin ∧
    (MemStorage.findOrCreateStationFromPlace
      (MemStorage.findOrCreateStationFromPlace storeTwoStations placeAtOrigin).2
      placeNearOrigin).1 = stationNearOrigin ∧
    stationAtOrigin ≠ stationNearOrigin := by
  have mA1 : matchesPlace stationNearOrigin placeAtOrigin = false := by
    norm_num [matchesPlace, stationNearOrigin, placeAtOrigin, jsMathAbs, coordEps]
  have mB1 : matchesPlace stationAtOrigin placeAtOrigin = true := by
    norm_num [matchesPlace, stationAtOrigin, placeAtOrigin, jsMathAbs, coordEps]
  have mA2 : matchesPlace stationNearOrigin placeNearOrigin = true := by
    norm_num [matchesPlace, stationNearOrigin, placeNearOrigin, jsMathAbs, coordEps]
  have f1 : List.find? (fun st => matchesPlace st placeAtOrigin) storeTwoStations.rows =
      some stationAtOrigin := by
    simp [storeTwoStations, List.find?, mA1, mB1]
  have f2 : List.find? (fun st => matchesPlace st placeNearOrigin) storeTwoStations.rows =
      some stationNearOrigin := by
    simp [storeTwoStations, List.find?, mA2]
  have d1 : DbStorage.findOrCreateStationFromPlace storeTwoStations placeAtOrigin =
      (stationAtOrigin, storeTwoStations) := by
    unfold DbStorage.findOrCreateStationFromPlace
    rw [f1]
  have d2 : DbStorage.findOrCreateStationFromPlace storeTwoStations placeNearOrigin =
      (stationNearOrigin, storeTwoStations) := by
    unfold DbStorage.findOrCreateStationFromPlace
    rw [f2]
  have m1 : MemStorage.findOrCreateStationFromPlace storeTwoStations placeAtOrigin =
      (stationAtOrigin, storeTwoStations) := by
    unfold MemStorage.findOrCreateStationFromPlace
    rw [f1]
  have m2 : MemStorage.findOrCreateStationFromPlace storeTwoStations placeNearOrigin =
      (stationNearOrigin, storeTwoStations) := by
    unfold MemStorage.findOrCreateStationFromPlace
    rw [f2]
  refine ⟨by norm_num [placeAtOrigin, placeNearOrigin, jsMathAbs, coordEps],
    by norm_num [placeAtOrigin, placeNearOrigin, jsMathAbs, coordEps], ?_, ?_, ?_, ?_, ?_⟩
  · rw [d1]
  · rw [d1]
    dsimp only
    rw [d2]
  · rw [m1]
  · rw [m1]
    dsimp only
    rw [m2]
  · intro h
    exact absurd (congrArg ChangingStation.id h) (by decide)

/-- C3 (amended): when no stored station lies within the tolerance of
either candidate, calling the reconciliation with the first candidate and
then with the second performs exactly one insertion and leaves exactly one
station within tolerance of that location, in both cited variants.  In
`DbStorage` the two calls return the same (newly created) row.  In the
cited `MemStorage` variant the two calls return the same stored station —
same id and same row — except that the first call's return value
additionally carries the `isGuaranteedChain` decoration added by the
spread copy at lines 276-279, which the stored row lacks.  Further, a
candidate whose coordinates differ from every stored station's by at least
the tolerance in latitude or longitude always gets a new station created,
in both variants. -/
theorem c3_reconciliation (state : StoreState) (p1 p2 : PlaceData)
    (h1 : ∀ st ∈ state.rows, matchesPlace st p1 = false)
    (h2 : ∀ st ∈ state.rows, matchesPlace st p2 = false)
    (hlat : jsMathAbs (p1.latitude - p2.latitude) < coordEps)
    (hlng : jsMathAbs (p1.longitude - p2.longitude) < coordEps) :
    ((DbStorage.findOrCreateStationFromPlace
        (DbStorage.findOrCreateStationFromPlace state p1).2 p2).1 =
      (DbStorage.findOrCreateStationFromPlace state p1).1 ∧
    (DbStorage.findOrCreateStationFromPlace
        (DbStorage.findOrCreateStationFromPlace state p1).2 p2).2 =
      (DbStorage.findOrCreateStationFromPlace state p1).2 ∧
    (DbStorage.findOrCreateStationFromPlace state p1).2.rows =
      state.rows ++ [(DbStorage.findOrCreateStationFromPlace state p1).1] ∧
    ((DbStorage.findOrCreateStationFromPlace state p1).2.rows.filter
        (fun st => matchesPlace st p1)).length = 1) ∧
    ((MemStorage.findOrCreateStationFromPlace
        (MemStorage.findOrCreateStationFromPlace state p1).2 p2).1 =
      memNewStationFromPlace state p1 ∧
    (MemStorage.findOrCreateStationFromPlace state p1).1 =
      { memNewStationFromPlace state p1 with
          isGuaranteedChain := some (isGuaranteedChain p1.businessName) } ∧
    (MemStorage.findOrCreateStationFromPlace state p1).1.id =
      (MemStorage.findOrCreateStationFromPlace
        (MemStorage.findOrCreateStationFromPlace state p1).2 p2).1.id ∧
    (MemStorage.findOrCreateStationFromPlace
        (MemStorage.findOrCreateStationFromPlace state p1).2 p2).2 =
      (MemStorage.findOrCreateStationFromPlace state p1).2 ∧
    (MemStorage.findOrCreateStationFromPlace state p1).2.rows =
      state.rows ++ [memNewStationFromPlace state p1] ∧
    ((MemStorage.findOrCreateStationFromPlace state p1).2.rows.filter
        (fun st => matchesPlace st p1)).length = 1) ∧
    (∀ (s : StoreState) (p : PlaceData),
      (∀ st ∈ s.rows, coordEps ≤ jsMathAbs (st.latitude - p.latitude) ∨
        coordEps ≤ jsMathAbs (st.longitude - p.longitude)) →
      (DbStorage.findOrCreateStationFromPlace s p).2.rows.length = s.rows.length + 1 ∧
      (MemStorage.findOrCreateStationFromPlace s p).2.rows.length = s.rows.length + 1) := by
  have hf1 : state.rows.find? (fun st => matchesPlace st p1) = none :=
    List.find?_eq_none.mpr (fun x hx => by simp [h1 x hx])
  have e1 : DbStorage.findOrCreateStationFromPlace state p1 =
      (newStationFromPlace state p1,
        ⟨state.rows ++ [newStationFromPlace state p1], state.nextId + 1⟩) := by
    unfold DbStorage.findOrCreateStationFromPlace newStationFromPlace
    rw [hf1]
    rfl
  have me1 : MemStorage.findOrCreateStationFromPlace state p1 =
      ({ memNewStationFromPlace state p1 with
          isGuaranteedChain := some (isGuaranteedChain p1.businessName) },
        ⟨state.rows ++ [memNewStationFromPlace state p1], state.nextId + 1⟩) := by
    unfold MemStorage.findOrCreateStationFromPlace memNewStationFromPlace
    rw [hf1]
    rfl
  have hm2 : matchesPlace (newStationFromPlace state p1) p2 = true := by
    have hla : (newStationFromPlace state p1).latitude = p1.latitude := rfl
    have hlo : (newStationFromPlace state p1).longitude = p1.longitude := rfl
    unfold matchesPlace
    rw [hla, hlo]
    simp only [Bool.and_eq_true, decide_eq_true_eq]
    exact ⟨hlat, hlng⟩
  have hm1 : matchesPlace (newStationFromPlace state p1) p1 = true := by
    have hla : (newStationFromPlace state p1).latitude = p1.latitude := rfl
    have hlo : (newStationFromPlace state p1).longitude = p1.longitude := rfl
    unfold matchesPlace
    rw [hla, hlo]
    simp only [Bool.and_eq_true, decide_eq_true_eq, sub_self]
    constructor <;> norm_num [jsMathAbs, coordEps]
  have hmm2 : matchesPlace (memNewStationFromPlace state p1) p2 = true := by
    have hla : (memNewStationFromPlace state p1).latitude = p1.latitude := rfl
    have hlo : (memNewStationFromPlace state p1).longitude = p1.longitude := rfl
    unfold matchesPlace
    rw [hla, hlo]
    simp only [Bool.and_eq_true, decide_eq_true_eq]
    exact ⟨hlat, hlng⟩
  have hmm1 : matchesPlace (memNewStationFromPlace state p1) p1 = true := by
    have hla : (memNewStationFromPlace state p1).latitude = p1.latitude := rfl
    have hlo : (memNewStationFromPlace state p1).longitude = p1.longitude := rfl
    unfold matchesPlace
    rw [hla, hlo]
    simp only [Bool.and_eq_true, decide_eq_true_eq, sub_self]
    constructor <;> norm_num [jsMathAbs, coordEps]
  have hf2 : (state.rows ++ [newStationFromPlace state p1]).find?
      (fun st => matchesPlace st p2) = some (newStationFromPlace state p1) := by
    rw [List.find?_append, List.find?_eq_none.mpr (fun x hx => by simp [h2 x hx])]
    simp [List.find?, hm2]
  have hmf2 : (state.rows ++ [memNewStationFromPlace state p1]).find?
      (fun st => matchesPlace st p2) = some (memNewStationFromPlace state p1) := by
    rw [List.find?_append, List.find?_eq_none.mpr (fun x hx => by simp [h2 x hx])]
    simp [List.find?, hmm2]
  have e2 : DbStorage.findOrCreateStationFromPlace
      ⟨state.rows ++ [newStationFromPlace state p1], state.nextId + 1⟩ p2 =
      (newStationFromPlace state p1,
        ⟨state.rows ++ [newStationFromPlace state p1], state.nextId + 1⟩) := by
    unfold DbStorage.findOrCreateStationFromPlace
    rw [hf2]
  have me2 : MemStorage.findOrCreateStationFromPlace
      ⟨state.rows ++ [memNewStationFromPlace state p1], state.nextId + 1⟩ p2 =
      (memNewStationFromPlace state p1,
        ⟨state.rows ++ [memNewStationFromPlace state p1], state.nextId + 1⟩) := by
    unfold MemStorage.findOrCreateStationFromPlace
    rw [hmf2]
  refine ⟨?_, ?_, ?_⟩
  · rw [e1]
    dsimp only
    rw [e2]
    refine ⟨rfl, rfl, rfl, ?_⟩
    rw [List.filter_append, List.filter_eq_nil_iff.mpr (fun a ha => by simp [h1 a ha])]
    simp [List.filter, hm1]
  · rw [me1]
    dsimp only
    rw [me2]
    refine ⟨rfl, rfl, rfl, rfl, rfl, ?_⟩
    rw [List.filter_append, List.filter_eq_nil_iff.mpr (fun a ha => by simp [h1 a ha])]
    simp [List.filter, hmm1]
  · intro s p hfar
    have hf : s.rows.find? (fun st => matchesPlace st p) = none := by
      refine List.find?_eq_none.mpr (fun x hx => ?_)
      intro hc
      rw [matchesPlace, Bool.and_eq_true, decide_eq_true_eq, decide_eq_true_eq] at hc
      rcases hfar x hx with h | h
      · exact absurd hc.1 (not_lt.mpr h)
      · exact absurd hc.2 (not_lt.mpr h)
    refine ⟨?_, ?_⟩
    · unfold DbStorage.findOrCreateStationFromPlace DbStorage.createChangingStation
      rw [hf]
      simp
    · unfold MemStorage.findOrCreateStationFromPlace MemStorage.createChangingStation
      rw [hf]
      simp

/-- C3 witness: the amended theorem applied to the empty store and the two
origin candidates, covering both variants. -/
theorem c3_reconciliation_witness :
    (DbStorage.findOrCreateStationFromPlace
        (DbStorage.findOrCreateStationFromPlace storeEmpty placeAtOrigin).2
        placeNearOrigin).1 =
      (DbStorage.findOrCreateStationFromPlace storeEmpty placeAtOrigin).1 ∧
    (MemStorage.findOrCreateStationFromPlace storeEmpty placeAtOrigin).1.id =
      (MemStorage.findOrCreateStationFromPlace
        (MemStorage.findOrCreateStationFromPlace storeEmpty placeAtOrigin).2
        placeNearOrigin).1.id ∧
    (MemStorage.findOrCreateStationFromPlace storeEmpty placeAtOrigin).1 =
      { memNewStationFromPlace storeEmpty placeAtOrigin with
          isGuaranteedChain := some (isGuaranteedChain placeAtOrigin.businessName) } ∧
    (DbStorage.findOrCreateStationFromPlace storeEmpty placeAtOrigin).2.rows =
      storeEmpty.rows ++ [(DbStorage.findOrCreateStationFromPlace storeEmpty placeAtOrigin).1] ∧
    (DbStorage.findOrCreateStationFromPlace storeEmpty placeNearOrigin).2.rows.length =
      storeEmpty.rows.length + 1 ∧
    (MemStorage.findOrCreateStationFromPlace storeEmpty placeNearOrigin).2.rows.length =
      storeEmpty.rows.length + 1 := by
  have h := c3_reconciliation storeEmpty placeAtOrigin placeNearOrigin
    (by decide) (by decide)
    (by norm_num [placeAtOrigin, placeNearOrigin, jsMathAbs, coordEps])
    (by norm_num [placeAtOrigin, placeNearOrigin, jsMathAbs, coordEps])
  have hfar := h.2.2 storeEmpty placeNearOrigin (by decide)
  exact ⟨h.1.1, h.2.1.2.2.1, h.2.1.2.1, h.1.2.2.1, hfar.1, hfar.2⟩

lemma gRank_eq_zero_iff (a : ScoredPlace) : gRank a = 0 ↔ a.isGuaranteedChain = true := by
  unfold gRank
  split <;> simp_all

lemma gRank_le_one (a : ScoredPlace) : gRank a ≤ 1 := by
  unfold gRank
  split <;> omega

lemma gRank_congr {a b : ScoredPlace} (h : a.isGuaranteedChain = b.isGuaranteedChain) :
    gRank a = gRank b := by
  unfold gRank
  rw [h]

/-- C7 (amended): the ranking is a permutation of its input that places
every guaranteed-chain candidate before every non-guaranteed one, orders
candidates of equal guaranteed status by score descending, orders
candidates of equal guaranteed status and score by effective distance
ascending — where a missing distance and a distance of exactly 0 are both
treated as infinite, i.e. sorted last — and is stable: candidates equal on
all three raw keys preserve their input order. -/
theorem c7_ranking (l : List ScoredPlace) :
    (sortPlaces l).Perm l ∧
    (sortPlaces l).Pairwise (fun a b =>
      b.isGuaranteedChain = true → a.isGuaranteedChain = true) ∧
    (sortPlaces l).Pairwise (fun a b =>
      a.isGuaranteedChain = b.isGuaranteedChain →
      b.changingStationScore ≤ a.changingStationScore) ∧
    (sortPlaces l).Pairwise (fun a b =>
      a.isGuaranteedChain = b.isGuaranteedChain →
      a.changingStationScore = b.changingStationScore →
      eDist a.distance ≤ eDist b.distance) ∧
    (∀ a b : ScoredPlace, a.isGuaranteedChain = b.isGuaranteedChain →
      a.changingStationScore = b.changingStationScore → a.distance = b.distance →
      [a, b].Sublist l → [a, b].Sublist (sortPlaces l)) := by
  have hsorted : (sortPlaces l).Pairwise rankLe := List.sorted_insertionSort rankLe l
  refine ⟨List.perm_insertionSort rankLe l, ?_, ?_, ?_,
    fun a b hg hs hd hsub =>
      List.pair_sublist_insertionSort
        (rankLe_of_rankOrd_eq (rankOrd_eq_of_keys_eq hg hs hd)) hsub⟩
  · refine hsorted.imp ?_
    intro a b hab hbg
    have hb0 : gRank b = 0 := (gRank_eq_zero_iff b).mpr hbg
    rcases rankLe_iff.mp hab with h | ⟨h, -⟩
    · rw [hb0] at h
      exact absurd h (Nat.not_lt_zero _)
    · exact (gRank_eq_zero_iff a).mp (by omega)
  · refine hsorted.imp ?_
    intro a b hab hg
    rcases rankLe_iff.mp hab with h | ⟨-, h2⟩
    · have := gRank_congr hg
      omega
    · rcases h2 with h | ⟨h, -⟩
      · exact le_of_lt h
      · exact le_of_eq h
  · refine hsorted.imp ?_
    intro a b hab hg hs
    rcases rankLe_iff.mp hab with h | ⟨-, h2⟩
    · have := gRank_congr hg
      omega
    · rcases h2 with h | ⟨-, h⟩
      · rw [hs] at h
        exact absurd h (lt_irrefl _)
      · exact h

/-- C7 witness: the amended theorem applied to a concrete two-element list,
extracting the permutation property and a stability instance. -/
theorem c7_ranking_witness :
    (sortPlaces [scoredAtZeroDist, scoredAtFiveDist]).Perm
      [scoredAtZeroDist, scoredAtFiveDist] ∧
    [scoredAtZeroDist, scoredAtZeroDist].Sublist
      (sortPlaces [scoredAtZeroDist, scoredAtZeroDist]) :=
  ⟨(c7_ranking [scoredAtZeroDist, scoredAtFiveDist]).1,
   (c7_ranking [scoredAtZeroDist, scoredAtZeroDist]).2.2.2.2 scoredAtZeroDist
     scoredAtZeroDist rfl rfl rfl (List.Sublist.refl _)⟩

/-- C7 counterexample: two candidates of equal guaranteed status and score
at distances 0 and 5; distance-ascending order would put the distance-0
candidate first, but the comparator treats 0 as infinity and the sort puts
it last. -/
theorem c7_counterexample :
    scoredAtZeroDist.isGuaranteedChain = scoredAtFiveDist.isGuaranteedChain ∧
    scoredAtZeroDist.changingStationScore = scoredAtFiveDist.changingStationScore ∧
    scoredAtZeroDist.distance = some 0 ∧
    scoredAtFiveDist.distance = some 5 ∧
    (0 : ℚ) < 5 ∧
    sortPlaces [scoredAtZeroDist, scoredAtFiveDist] =
      [scoredAtFiveDist, scoredAtZeroDist] := by
  decide

/-- C10: the comparator's `distance || Infinity` maps a distance of exactly
0 to infinity like a missing distance, so with equal guaranteed status and
score the comparator orders a distance-0 candidate after any candidate at
positive distance, and the two-element sort puts it last. -/
theorem c10_zero_distance_as_missing (a b : ScoredPlace) (d : ℚ)
    (hg : a.isGuaranteedChain = b.isGuaranteedChain)
    (hsc : a.changingStationScore = b.changingStationScore)
    (ha : a.distance = some 0) (hb : b.distance = some d) (hd : 0 < d) :
    jsOrInfinity (some 0) = jsOrInfinity none ∧
    rankOrd a b = Ordering.gt ∧
    sortPlaces [a, b] = [b, a] := by
  have hord : rankOrd a b = Ordering.gt := by
    unfold rankOrd distCmp jsOrInfinity qCmp
    rw [hg, hsc, ha, hb]
    cases hbg : b.isGuaranteedChain <;> simp [hd.ne', lt_irrefl]
  have hnle : ¬ rankLe a b := by simp [rankLe, hord]
  refine ⟨rfl, hord, ?_⟩
  unfold sortPlaces
  simp [List.insertionSort, List.orderedInsert, hnle]

/-- C10 witness: concrete candidates at distances 0 and 250. -/
theorem c10_zero_distance_as_missing_witness :
    jsOrInfinity (some 0) = jsOrInfinity none ∧
    rankOrd scoredZeroW scoredFarW = Ordering.gt ∧
    sortPlaces [scoredZeroW, scoredFarW] = [scoredFarW, scoredZeroW] :=
  c10_zero_distance_as_missing scoredZeroW scoredFarW 250 rfl rfl rfl rfl (by norm_num)
